import Mathlib

/-!
Verification development for the competitor news-scraper pipeline.

The Python sources are shallowly embedded as executable Lean definitions:
strings are modelled at the character level (`List Char`), timestamps as
integers (seconds, with day boundaries at multiples of 86400), regular
expressions as explicit pattern element lists interpreted by a small
backtracking matcher, and the filesystem side of the exporters as the list
of rows the file holds.
-/

set_option autoImplicit false

namespace NewsScraper

/-! ## Character primitives (Python semantics, restricted to the
ASCII + Spanish-accent alphabet that the scrapers' data uses) -/

/-- ASCII decimal digit, as matched by `\d` / `str.isdigit` on ASCII input. -/
def isPyDigit (c : Char) : Bool := '0' ≤ c && c ≤ '9'

/-- Whitespace as matched by Python `\s` and `str.split()`/`str.strip()`
on the character set occurring here: space, tab, newline, vertical tab,
form feed, carriage return. -/
def isPySpace (c : Char) : Bool :=
  c = ' ' || c = '\t' || c = '\n' || c = Char.ofNat 11 || c = Char.ofNat 12 || c = '\r'

def isAsciiLower (c : Char) : Bool := 'a' ≤ c && c ≤ 'z'

def isAsciiUpper (c : Char) : Bool := 'A' ≤ c && c ≤ 'Z'

/-- Lower-case letters of the scrapers' alphabet: `[a-záéíóúüñ]`. -/
def isLowerEx (c : Char) : Bool :=
  isAsciiLower c || c = 'á' || c = 'é' || c = 'í' || c = 'ó' || c = 'ú' || c = 'ü' || c = 'ñ'

/-- Upper-case letters of the scrapers' alphabet: `[A-ZÁÉÍÓÚÜÑ]`. -/
def isUpperEx (c : Char) : Bool :=
  isAsciiUpper c || c = 'Á' || c = 'É' || c = 'Í' || c = 'Ó' || c = 'Ú' || c = 'Ü' || c = 'Ñ'

def isLetterEx (c : Char) : Bool := isLowerEx c || isUpperEx c

/-- Word character for `\b` boundaries (`\w` = letter, digit or underscore,
over the alphabet in use). -/
def isWordChar (c : Char) : Bool := isLetterEx c || isPyDigit c || c = '_'

/-- Python `str.lower` on the alphabet in use. -/
def toLowerEx (c : Char) : Char :=
  if isAsciiUpper c then Char.ofNat (c.toNat + 32)
  else if c = 'Á' then 'á' else if c = 'É' then 'é' else if c = 'Í' then 'í'
  else if c = 'Ó' then 'ó' else if c = 'Ú' then 'ú' else if c = 'Ü' then 'ü'
  else if c = 'Ñ' then 'ñ' else c

/-- Python `str.upper` on the alphabet in use. -/
def toUpperEx (c : Char) : Char :=
  if isAsciiLower c then Char.ofNat (c.toNat - 32)
  else if c = 'á' then 'Á' else if c = 'é' then 'É' else if c = 'í' then 'Í'
  else if c = 'ó' then 'Ó' else if c = 'ú' then 'Ú' else if c = 'ü' then 'Ü'
  else if c = 'ñ' then 'Ñ' else c

def lowerChars (l : List Char) : List Char := l.map toLowerEx

/-! ## String utilities (Python string methods on `List Char`) -/

/-- Does `pat` occur at the head of `l`? -/
def startsWithSeq : List Char → List Char → Bool
  | [], _ => true
  | _ :: _, [] => false
  | a :: as, b :: bs => a = b && startsWithSeq as bs

def endsWithSeq (pat l : List Char) : Bool := startsWithSeq pat.reverse l.reverse

/-- Python `str.strip()` (whitespace from both edges). -/
def pyStrip (l : List Char) : List Char :=
  ((l.dropWhile isPySpace).reverse.dropWhile isPySpace).reverse

/-- Python `str.strip(chars)`: remove any of `set` from both edges. -/
def pyStripChars (set : List Char) (l : List Char) : List Char :=
  ((l.dropWhile (fun c => set.contains c)).reverse.dropWhile (fun c => set.contains c)).reverse

def pySplitWsAux : List Char → List Char → List (List Char)
  | [], acc => if acc.isEmpty then [] else [acc.reverse]
  | c :: cs, acc =>
    if isPySpace c then
      if acc.isEmpty then pySplitWsAux cs [] else acc.reverse :: pySplitWsAux cs []
    else pySplitWsAux cs (c :: acc)

/-- Python `str.split()` with no argument: split on whitespace runs,
dropping empty pieces. -/
def pySplitWs (l : List Char) : List (List Char) := pySplitWsAux l []

def splitOnCharAux (sep : Char) : List Char → List Char → List (List Char)
  | [], acc => [acc.reverse]
  | c :: cs, acc =>
    if c = sep then acc.reverse :: splitOnCharAux sep cs []
    else splitOnCharAux sep cs (c :: acc)

/-- Python `str.split(sep)` for a one-character separator: keeps empty
pieces, always returns at least one piece. -/
def splitOnChar (sep : Char) (l : List Char) : List (List Char) := splitOnCharAux sep l []

def joinSep (sep : List Char) : List (List Char) → List Char
  | [] => []
  | [w] => w
  | w :: ws => w ++ sep ++ joinSep sep ws

/-- Python `str.replace(a, b)` for one-character arguments. -/
def replaceChar (a b : Char) (l : List Char) : List Char :=
  l.map (fun c => if c = a then b else c)

def replaceAllSubAux (pat repl : List Char) : Nat → List Char → List Char
  | 0, l => l
  | _ + 1, [] => []
  | f + 1, c :: cs =>
    if pat.isEmpty then c :: cs
    else if startsWithSeq pat (c :: cs) then
      repl ++ replaceAllSubAux pat repl f (cs.drop (pat.length - 1))
    else c :: replaceAllSubAux pat repl f cs

/-- Python `str.replace(pat, repl)`: replace every occurrence of `pat`,
scanning left to right. -/
def replaceAllSub (pat repl l : List Char) : List Char := replaceAllSubAux pat repl l.length l

/-- Python `str.replace(pat, "")`. -/
def removeAllSub (pat l : List Char) : List Char := replaceAllSub pat [] l

def collapseWsAux : Bool → List Char → List Char
  | _, [] => []
  | inRun, c :: cs =>
    if isPySpace c then
      if inRun then collapseWsAux true cs else ' ' :: collapseWsAux true cs
    else c :: collapseWsAux false cs

/-- Python `re.sub(r"\s+", " ", s)`: collapse whitespace runs to one space
(without trimming the edges). -/
def collapseWs (l : List Char) : List Char := collapseWsAux false l

def pyTitleAux : Bool → List Char → List Char
  | _, [] => []
  | prevCased, c :: cs =>
    if isLetterEx c then
      (if prevCased then toLowerEx c else toUpperEx c) :: pyTitleAux true cs
    else c :: pyTitleAux false cs

/-- Python `str.title()`: upper-case each letter that follows a non-cased
character, lower-case the rest (letters restricted to the alphabet in use). -/
def pyTitle (l : List Char) : List Char := pyTitleAux false l

/-! ## A small backtracking matcher for the author regexes

Each source regular expression is compiled to one or more element
sequences (one per branch of a top-level alternation of literals).
`matchElems` consumes elements against the input with full backtracking,
so a `true` result coincides with `re.search` finding a match. -/

inductive ReElem where
  /-- A literal character sequence (never empty in the patterns below). -/
  | lit (cs : List Char)
  /-- An optional literal (`cs?` with `cs` literal). -/
  | optLit (cs : List Char)
  /-- Zero or more characters of a class (`p*`). -/
  | many (p : Char → Bool)
  /-- One or more characters of a class (`p+`). -/
  | many1 (p : Char → Bool)
  /-- A word boundary (`\b`). -/
  | bnd
  /-- End of the input (`$`). -/
  | eos

def isWordO : Option Char → Bool
  | none => false
  | some c => isWordChar c

/-- The context character after consuming the literal `cs` (last of `cs`,
or the previous context if `cs` is empty). -/
def lastAfter (cs : List Char) (prev : Option Char) : Option Char :=
  match cs.getLast? with
  | some c => some c
  | none => prev

/-- Match a pattern element list at the current position, with `prev` the
character just before the position (for `\b`). Backtracks over `many`
splits; the fuel strictly bounds the recursion depth. -/
def matchElems : Nat → List ReElem → Option Char → List Char → Bool
  | 0, _, _, _ => false
  | _ + 1, [], _, _ => true
  | f + 1, .lit cs :: es, prev, rest =>
    startsWithSeq cs rest && matchElems f es (lastAfter cs prev) (rest.drop cs.length)
  | f + 1, .optLit cs :: es, prev, rest =>
    matchElems f es prev rest
      || (startsWithSeq cs rest && matchElems f es (lastAfter cs prev) (rest.drop cs.length))
  | f + 1, .many p :: es, prev, rest =>
    matchElems f es prev rest
      || (match rest with
          | [] => false
          | c :: cs => p c && matchElems f (.many p :: es) (some c) cs)
  | f + 1, .many1 p :: es, prev, rest =>
    (match rest with
     | [] => false
     | c :: cs => p c && matchElems f (.many p :: es) (some c) cs)
  | f + 1, .bnd :: es, prev, rest =>
    (isWordO prev != isWordO rest.head?) && matchElems f es prev rest
  | f + 1, .eos :: es, prev, rest =>
    rest.isEmpty && matchElems f es prev rest

def searchFrom : Nat → List ReElem → Option Char → List Char → Bool
  | 0, _, _, _ => false
  | f + 1, es, prev, rest =>
    matchElems (rest.length + es.length + 1) es prev rest
      || (match rest with
          | [] => false
          | c :: cs => searchFrom f es (some c) cs)

/-- Python `re.search(pattern, s)` for an unanchored pattern. -/
def reSearch (es : List ReElem) (l : List Char) : Bool :=
  searchFrom (l.length + 1) es none l

/-- Python `re.search(pattern, s)` for a pattern anchored at `^` (the pattern
carries its own `.eos` when it is also anchored at `$`). -/
def reMatchA (es : List ReElem) (l : List Char) : Bool :=
  matchElems (l.length + es.length + 1) es none l

/-- Pattern `\bw\b` for a literal word or phrase `w`. -/
def wordPat (w : String) : List ReElem := [.bnd, .lit w.data, .bnd]

/-- One `\bw\b` branch per word of a source alternation
`\b(w1|w2|...)\b`. -/
def anyWordSearch (ws : List String) (l : List Char) : Bool :=
  ws.any (fun w => reSearch (wordPat w) l)

/-! ## Field Normalizer: `BaseScraper.clean_text` (base_scraper.py:203) -/

/-- Embeds `BaseScraper.clean_text` for string input: `' '.join(s.split())`
followed by `strip()` (the source's list branch is not modelled; every
call site in this development passes a string). Falsy input gives `""`. -/
def clean_text (s : String) : String :=
  ⟨pyStrip (joinSep [' '] (pySplitWs s.data))⟩

/-! ## Field Normalizer: `BaseScraper.clean_authors` (base_scraper.py:212)

The source tests each candidate against `exclude_patterns` with
`re.IGNORECASE` (so the candidate is lower-cased here and the patterns are
written in lower case), then requires a match of one of three anchored
`include_patterns` (case-sensitive). Each matcher below is one source
regex, kept in source order; alternations of literals are expanded into
one branch per literal. -/

/-- Exclusion test of `clean_authors` (the `any(re.search(pattern, author,
re.IGNORECASE) ...)` over `exclude_patterns`), one disjunct per source
pattern. -/
def excludeMatch (author : List Char) : Bool :=
  let low := lowerChars author
  -- r"\bpor\b" ... r"\bcon\b"
  anyWordSearch ["por", "de", "la", "el", "y", "para", "con"] low
  -- r"\bactualizado\b" ... r"\bcorreo\b"
  || anyWordSearch ["actualizado", "publicado", "compartir", "twitter", "facebook",
      "instagram", "whatsapp", "telegram", "email", "correo"] low
  -- r"\bcontacto\b" ... r"\bpágina web\b"
  || anyWordSearch ["contacto", "web", "página", "pagina", "página web"] low
  -- r"\bseguir\b", r"\bseguir leyendo\b", r"\bnoticias relacionadas\b"
  || anyWordSearch ["seguir", "seguir leyendo", "noticias relacionadas"] low
  -- r"\bmas en\b" ... r"\bseguir leyendo\b"
  || anyWordSearch ["mas en", "más en", "ver más", "ver mas", "seguir leyendo"] low
  -- r"\bcomentarios\b" ... r"\bcomentario\b"
  || anyWordSearch ["comentarios", "comentar", "comenta", "comentario"] low
  -- r"\bmin\b", r"\bde lectura\b", r"\blectura\b", r"\bminuto\b", r"\bminutos\b"
  || anyWordSearch ["min", "de lectura", "lectura", "minuto", "minutos"] low
  -- r"\b\d+\s*[a-z]*\s*de\s*lectura\b"
  || reSearch [.bnd, .many1 isPyDigit, .many isPySpace, .many isAsciiLower,
      .many isPySpace, .lit "de".data, .many isPySpace, .lit "lectura".data, .bnd] low
  -- r"\b\d+\s*[a-z]*\s*min\b"
  || reSearch [.bnd, .many1 isPyDigit, .many isPySpace, .many isAsciiLower,
      .many isPySpace, .lit "min".data, .bnd] low
  -- r"\b\d+/\d+/\d+\b"  (dates)
  || reSearch [.bnd, .many1 isPyDigit, .lit "/".data, .many1 isPyDigit,
      .lit "/".data, .many1 isPyDigit, .bnd] low
  -- r"\b\d+:\d+\b"  (times)
  || reSearch [.bnd, .many1 isPyDigit, .lit ":".data, .many1 isPyDigit, .bnd] low
  -- r"\b\d+\s*[a-z]*\s*comentarios?\b"
  || reSearch [.bnd, .many1 isPyDigit, .many isPySpace, .many isAsciiLower,
      .many isPySpace, .lit "comentario".data, .optLit "s".data, .bnd] low
  -- r"^[^a-záéíóúüñ\s]+$"  (no letters; IGNORECASE makes the class exclude
  -- both cases, which on the lower-cased input is excluding isLowerEx)
  || reMatchA [.many1 (fun c => !(isLowerEx c || isPySpace c)), .eos] low
  -- r"^[\W_]+$"  (only symbols: no letter, digit or anything else of \w
  -- except the underscore, which the class adds back)
  || reMatchA [.many1 (fun c => !(isLetterEx c || isPyDigit c)), .eos] low
  -- r"^[0-9\s]+$"  (only numbers and spaces)
  || reMatchA [.many1 (fun c => isPyDigit c || isPySpace c), .eos] low
  -- r"\b(redacci[óo]n|redaccion)\b"
  || anyWordSearch ["redacción", "redaccion"] low
  -- r"\b(equipo|staff|editorial|edici[óo]n|nota de prensa|comunicado|agencias?|ef[ei]?)\b"
  || anyWordSearch ["equipo", "staff", "editorial", "edición", "edicion",
      "nota de prensa", "comunicado", "agencia", "agencias", "ef", "efe", "efi"] low
  -- r"\b(por\s+)?(el|la|los|las)\s+"  (a match of the full pattern always
  -- contains a match of its mandatory suffix \b(el|la|los|las)\s+, and
  -- conversely, so the optional "por\s+" prefix is dropped here)
  || ["el", "la", "los", "las"].any
      (fun w => reSearch [.bnd, .lit w.data, .many1 isPySpace] low)
  -- r"\b(por|de|en|a|con|para|porque|según)\b"
  || anyWordSearch ["por", "de", "en", "a", "con", "para", "porque", "según"] low
  -- r"\b(por|de|en|a|con|para|porque|según)\s+"
  || ["por", "de", "en", "a", "con", "para", "porque", "según"].any
      (fun w => reSearch [.bnd, .lit w.data, .many1 isPySpace] low)
  -- r"\s+(por|de|en|a|con|para|porque|según)\b"
  || ["por", "de", "en", "a", "con", "para", "porque", "según"].any
      (fun w => reSearch [.many1 isPySpace, .lit w.data, .bnd] low)
  -- r"\b(por|de|en|a|con|para|porque|según)\s+"  (repeated in the source)
  || ["por", "de", "en", "a", "con", "para", "porque", "según"].any
      (fun w => reSearch [.bnd, .lit w.data, .many1 isPySpace] low)
  -- r"\b(redacci[óo]n|...|ef[ei]?)\b"  (repeated in the source)
  || anyWordSearch ["redacción", "redaccion", "equipo", "staff", "editorial",
      "edición", "edicion", "nota de prensa", "comunicado", "agencia", "agencias",
      "ef", "efe", "efi"] low
  -- r"\b(redacci[óo]n|...|ef[ei]?)\s+[a-z]+"
  || ["redacción", "redaccion", "equipo", "staff", "editorial", "edición", "edicion",
      "nota de prensa", "comunicado", "agencia", "agencias", "ef", "efe", "efi"].any
      (fun w => reSearch [.bnd, .lit w.data, .many1 isPySpace, .many1 isAsciiLower] low)
  -- r"\b(redacci[óo]n|...|ef[ei]?)\s+[a-z]+\s+[a-z]+"
  || ["redacción", "redaccion", "equipo", "staff", "editorial", "edición", "edicion",
      "nota de prensa", "comunicado", "agencia", "agencias", "ef", "efe", "efi"].any
      (fun w => reSearch [.bnd, .lit w.data, .many1 isPySpace, .many1 isAsciiLower,
        .many1 isPySpace, .many1 isAsciiLower] low)
  -- r"\b(redacci[óo]n|...|ef[ei]?)\s+[a-z]+\s+[a-z]+\s+[a-z]+"
  || ["redacción", "redaccion", "equipo", "staff", "editorial", "edición", "edicion",
      "nota de prensa", "comunicado", "agencia", "agencias", "ef", "efe", "efi"].any
      (fun w => reSearch [.bnd, .lit w.data, .many1 isPySpace, .many1 isAsciiLower,
        .many1 isPySpace, .many1 isAsciiLower, .many1 isPySpace, .many1 isAsciiLower] low)

/-- A `[A-ZÁÉÍÓÚÜÑ][a-záéíóúüñ]+` token: capitalized word of length ≥ 2. -/
def isCapWord : List Char → Bool
  | [] => false
  | c :: rest => isUpperEx c && !rest.isEmpty && rest.all isLowerEx

/-- A `[a-záéíóúüñ]+` token. -/
def isLowerWord (w : List Char) : Bool := !w.isEmpty && w.all isLowerEx

/-- A `[A-ZÁÉÍÓÚÜÑ]\.?` token: single capital, optionally with a dot. -/
def isInitialTok : List Char → Bool
  | [c] => isUpperEx c
  | [c, d] => isUpperEx c && d = '.'
  | _ => false

/-- Include pattern 1: `^W(\s+W){1,3}$` with `W` a capitalized word —
2 to 4 capitalized tokens. -/
def includePat1 (ts : List (List Char)) : Bool :=
  decide (2 ≤ ts.length) && decide (ts.length ≤ 4) && ts.all isCapWord

/-- Include pattern 2: `^W(\s+[a-z...]+)*\s+W$` — first and last token
capitalized, the middle ones all lower-case. -/
def includePat2 : List (List Char) → Bool
  | [] => false
  | [_] => false
  | t :: ts =>
    isCapWord t &&
      (match ts.getLast? with
       | none => false
       | some lastTok => isCapWord lastTok && (ts.dropLast.all isLowerWord))

/-- Include pattern 3: `^W(\s+W){1,2}(\s+[A-Z...]\.?)?$` — 2 or 3
capitalized tokens, optionally followed by a single initial. -/
def includePat3 (ts : List (List Char)) : Bool :=
  (decide (2 ≤ ts.length) && decide (ts.length ≤ 3) && ts.all isCapWord)
  || (decide (3 ≤ ts.length) && decide (ts.length ≤ 4) && ts.dropLast.all isCapWord
      && (match ts.getLast? with
          | none => false
          | some lastTok => isInitialTok lastTok))

/-- Inclusion test of `clean_authors`: the three anchored name patterns.
Since each pattern is `^...$` with character classes that exclude
whitespace separated by `\s+`, a full match exists exactly when the
whitespace tokenization of the candidate (with no leading or trailing
whitespace) fits the token shape. -/
def includeMatch (l : List Char) : Bool :=
  match l with
  | [] => false
  | c :: _ =>
    if isPySpace c || isPySpace (l.getLast?.getD c) then false
    else
      let ts := pySplitWs l
      includePat1 ts || includePat2 ts || includePat3 ts

/-- Characters stripped from the edges after whitespace normalization:
`author.strip(' ,.-_|')`. -/
def authorEdgeChars : List Char := [' ', ',', '.', '-', '_', '|']

/-- One iteration of the `for author in authors` loop of `clean_authors`:
either skips the candidate or appends its cleaned form. -/
def cleanAuthorsStep (max_name_length : Nat) (acc : List String) (author : String) : List String :=
  if author.data.isEmpty then acc            -- `if not author: continue`
  else
    let a := pyStrip author.data             -- `author = str(author).strip()`
    if max_name_length < a.length then acc   -- `if len(author) > max_name_length`
    else if excludeMatch a then acc          -- exclude patterns
    else if !includeMatch a then acc         -- must match an include pattern
    else
      let a := collapseWs a                  -- `re.sub(r'\s+', ' ', author)`
      let a := pyStripChars authorEdgeChars a -- `author.strip(' ,.-_|')`
      if a.length < 3 || (pySplitWs a).length < 2 then acc
      else if acc.any (fun b => lowerChars b.data = lowerChars a) then acc
      else acc ++ [⟨a⟩]

/-- Embeds `BaseScraper.clean_authors` (list input; the source's
single-string branch wraps the string into a one-element list). -/
def clean_authors (authors : List String) (max_name_length : Nat := 50) : List String :=
  authors.foldl (cleanAuthorsStep max_name_length) []

/-! ## Field Normalizer: `BaseScraper.extract_section_from_url`
(base_scraper.py:169) -/

/-- Rest of the URL after stripping a `scheme://`-style scheme marker,
mirroring the scheme split of `urllib.parse.urlparse` for URLs whose
scheme is followed by an authority. -/
def urlAfterScheme (url : String) : List Char :=
  if (splitOnChar ':' url.data).length > 1
      && startsWithSeq "//".data ((splitOnChar ':' url.data).tail.head!) then
    (url.data.dropWhile (fun c => c ≠ ':')).drop 1
  else url.data

/-- Netloc component of `urllib.parse.urlparse`: present only after a
`//`, and ending at the first `/`, `?` or `#` (CPython's
`_splitnetloc`). -/
def urlNetloc (url : String) : List Char :=
  if startsWithSeq "//".data (urlAfterScheme url) then
    ((urlAfterScheme url).drop 2).takeWhile (fun c => c ≠ '/' && c ≠ '?' && c ≠ '#')
  else []

/-- Path component of `urllib.parse.urlparse`, modelled for the absolute
`http(s)` URLs the scrapers handle: what follows the netloc, cut at the
query (`?`) or fragment (`#`) separator (empty when the netloc is
followed directly by a query or fragment). -/
def urlPath (url : String) : List Char :=
  if startsWithSeq "//".data (urlAfterScheme url) then
    (((urlAfterScheme url).drop 2).dropWhile
        (fun c => c ≠ '/' && c ≠ '?' && c ≠ '#')).takeWhile
      (fun c => c ≠ '?' && c ≠ '#')
  else (urlAfterScheme url).takeWhile (fun c => c ≠ '?' && c ≠ '#')

/-- Does the character occur in the list? -/
def hasChar (a : Char) (l : List Char) : Bool := l.any (fun c => c = a)

/-- Does `urlparse` raise `ValueError` on this URL? CPython raises
"Invalid IPv6 URL" whenever the netloc contains one square bracket
without its partner — the check that is stable across every CPython 3.x
version, captured here. (CPython 3.11+ additionally validates a
well-bracketed host as an IPv6/IPvFuture literal and may raise on more
URLs; the success-path theorems below therefore only assume URLs whose
netloc carries no bracket at all, where every version succeeds.) -/
def urlparseRaises (url : String) : Bool :=
  let netloc := urlNetloc url
  (hasChar '[' netloc && !hasChar ']' netloc)
    || (hasChar ']' netloc && !hasChar '[' netloc)

/-- The stoplist of `extract_section_from_url` (`ignore_parts`). -/
def ignoreParts : List (List Char) :=
  ["www", "http", "https", "com", "es", "noticias",
   "actualidad", "ultimas-noticias", "articulo", "noticia"].map String.data

/-- Is the segment purely numeric once hyphens are removed
(`p.replace('-', '').isdigit()`)? Python's `isdigit` is false on the
empty string. -/
def isNumericSegment (p : List Char) : Bool :=
  let s := p.filter (fun c => c ≠ '-')
  !s.isEmpty && s.all isPyDigit

/-- The `relevant_parts` of `extract_section_from_url`: path segments with
nonempty strip, not in the stoplist, not purely numeric, longer than
2 characters. -/
def relevantParts (url : String) : List (List Char) :=
  let path_parts := (splitOnChar '/' (urlPath url)).filter (fun p => !(pyStrip p).isEmpty)
  path_parts.filter (fun p =>
    !ignoreParts.contains p && !isNumericSegment p && decide (2 < p.length))

/-- Embeds `BaseScraper.extract_section_from_url`, its `try/except`
included: when `urlparse` raises (a netloc with mismatched square
brackets, `urlparseRaises`), the `except` branch of
base_scraper.py:199-201 catches the exception and returns the lower-case
default `('general', '')`. Otherwise section and subsection are the
first two relevant segments (defaults `'general'` and `''`), and
`replace('-', ' ').title().strip()` is then applied to both — the
defaults included. -/
def extract_section_from_url (url : String) : String × String :=
  if urlparseRaises url then ("general", "")
  else
    let relevant := relevantParts url
    let sec := match relevant.head? with
      | some p => p
      | none => "general".data
    let subsection := match relevant.get? 1 with
      | some p => p
      | none => "".data
    (⟨pyStrip (pyTitle (replaceChar '-' ' ' sec))⟩,
     ⟨pyStrip (pyTitle (replaceChar '-' ' ' subsection))⟩)

/-! ## Article Fetcher/Extractor: `BaseScraper.get_article_data`
(base_scraper.py:68) -/

/-- The meta tags consulted by the author fallbacks (`article.meta_data`);
`none` models a missing key. A `metaData = none` on `ParsedArticle` models
`article.meta_data` being absent or empty (falsy). -/
structure MetaData where
  author : Option String := none
  articleAuthor : Option String := none
  sailthruAuthor : Option String := none
  dcCreator : Option String := none
  dctermsCreator : Option String := none
  parselyAuthor : Option String := none
  twitterCreator : Option String := none
  ogByline : Option String := none
  byline : Option String := none
  articleByline : Option String := none
deriving Repr

/-- Outcome of formatting `article.publish_date`: `none` models a falsy
`publish_date`; `some (.ok s)` a value whose `isoformat()`/`str()`
succeeds with `s`; `some (.error m)` a value whose formatting raises (the
inner `except` of base_scraper.py:130). -/
abbrev PublishDateSrc := Option (Except String String)

/-- The parsed page, as `newspaper`'s `Article` exposes it after
`download()` and `parse()` succeed. -/
structure ParsedArticle where
  title : String := ""
  text : String := ""
  authors : List String := []
  metaData : Option MetaData := none
  publishDate : PublishDateSrc := none
  html : String := ""
  images : List String := []
  keywords : List String := []
  metaDescription : String := ""
deriving Repr

/-- The record `get_article_data` returns (all keys of the returned dict). -/
structure ArticleRecord where
  title : String
  text : String
  publish_date : String
  authors : List String
  url : String
  source : String
  domain : String
  html : String
  images : List String
  keywords : List String
  summary : String
  «section» : String
  subsection : String
deriving Repr, DecidableEq

/-- First truthy (present and nonempty) option, as Python `a or b or c`. -/
def firstTruthy : List (Option String) → Option String
  | [] => none
  | some s :: rest => if s.data.isEmpty then firstTruthy rest else some s
  | none :: rest => firstTruthy rest

/-- The `raw_authors` meta-tag fallback of base_scraper.py:84-97: collect
the listed tags, keeping entries that are truthy with nonempty strip. -/
def metaAuthorTags (m : MetaData) : List String :=
  ([m.author, m.articleAuthor, m.sailthruAuthor, m.dcCreator, m.dctermsCreator,
    m.parselyAuthor, m.twitterCreator].filterMap id).filter
    (fun a => !(pyStrip a.data).isEmpty)

/-- Embeds `BaseScraper.get_article_data`. The download/parse/extraction
attempt is the `outcome` argument: `.ok` carries the parsed page,
`.error` the message of an exception reaching the outer handler
(base_scraper.py:150). `now` is `datetime.now(timezone.utc).isoformat()`.
The function is total: no failure escapes to the caller. -/
def get_article_data (name domain now url : String)
    (outcome : Except String ParsedArticle) : ArticleRecord :=
  match outcome with
  | .error e =>
    { title := "Error al extraer el artículo"
      text := ""
      publish_date := now
      authors := ["Error"]
      url := url
      source := name
      domain := domain
      html := ""
      images := []
      keywords := []
      summary := "Error al procesar el artículo: " ++ e
      «section» := "error"
      subsection := "" }
  | .ok article =>
    let raw_authors :=
      if article.authors.isEmpty then
        match article.metaData with
        | some m => metaAuthorTags m
        | none => []
      else article.authors
    let cleaned := clean_authors raw_authors
    let cleaned :=
      if cleaned.isEmpty then
        match article.metaData with
        | some m =>
          match firstTruthy [m.ogByline, m.byline, m.articleByline] with
          | some b => clean_authors [b]
          | none => cleaned
        | none => cleaned
      else cleaned
    let secsub := extract_section_from_url url
    let publish_date :=
      match article.publishDate with
      | none => now
      | some (.ok s) => s
      | some (.error _) => now   -- inner handler: fall back to current date
    let summarySrc :=
      if article.metaDescription.data.isEmpty then
        ⟨article.text.data.take 200 ++ "...".data⟩
      else article.metaDescription
    { title := if (clean_text article.title).data.isEmpty then "Sin título"
               else clean_text article.title
      text := article.text
      publish_date := publish_date
      authors := if cleaned.isEmpty then ["Redacción"] else cleaned
      url := url
      source := name
      domain := domain
      html := if article.html.data.isEmpty then ""
              else ⟨article.html.data.take 500 ++ "...".data⟩
      images := article.images.take 5
      keywords := article.keywords.take 10
      summary := if (clean_text summarySrc).data.isEmpty then "Sin resumen disponible"
                 else clean_text summarySrc
      «section» := secsub.1
      subsection := secsub.2 }

/-- An orchestrator processing a list of URLs: each URL's fetch outcome is
turned into a record by `get_article_data`; nothing is dropped. -/
def processUrls (name domain now : String) (fetch : String → Except String ParsedArticle)
    (urls : List String) : List ArticleRecord :=
  urls.map (fun u => get_article_data name domain now u (fetch u))

/-! ## Sitemap Strategy: `CompetitorExporter.get_recent_article_urls`
(export_competitors.py:235)

Timestamps are integers (seconds); `datetime.now()` is the parameter
`now`, and `datetime.now().replace(hour=0, minute=0, second=0,
microsecond=0)` — the `today` of export_competitors.py:287 — is the start
of `now`'s day, with day boundaries at multiples of 86400.

Only the per-entry filter loop over the entries of one parsed sitemap
document (export_competitors.py:329-433) is modelled; network fetching,
robots.txt recursion and XML decoding lie outside the claims. -/

/-- Best-effort timestamp of a sitemap `<url>` entry (`lastmod` /
`news:publication_date`): absent, present but unparseable by the date
branches of export_competitors.py:396-406, or parsed to `t`. -/
inductive DateInfo where
  | absent
  | unparseable
  | parsed (t : Int)
deriving Repr, DecidableEq

/-- A `<url>` element of a sitemap: `loc = none` models a missing `loc`
child or one with falsy text. -/
structure SitemapEntry where
  loc : Option String
  date : DateInfo
deriving Repr

def secondsPerDay : Int := 86400

/-- Start of the day containing `now` (`datetime.now().replace(hour=0,
minute=0, second=0, microsecond=0)`). -/
def dayStart (now : Int) : Int := now - now.emod secondsPerDay

/-- The per-entry recency test of export_competitors.py:390-420: an entry
is skipped only when its date parses and `lastmod_date < today -
timedelta(days=max_days_old)`; an absent or unparseable date keeps the
entry ("include it to be safe"). -/
def entryKept (now max_days_old : Int) : DateInfo → Bool
  | .absent => true
  | .unparseable => true
  | .parsed t => !(t < dayStart now - max_days_old * secondsPerDay)

/-- Embeds the entry-filter loop of
`CompetitorExporter.get_recent_article_urls`: only the first 200 entries
are examined (`for url in urls[:200]`), entries without a usable `loc` are
skipped, and the kept `loc` texts are collected stripped, in order. -/
def get_recent_article_urls (now max_days_old : Int) (entries : List SitemapEntry) :
    List String :=
  (entries.take 200).filterMap (fun e =>
    match e.loc with
    | none => none
    | some l =>
      if l.data.isEmpty then none
      else if entryKept now max_days_old e.date then some ⟨pyStrip l.data⟩
      else none)

/-! ## Feed Strategy: `CompetitorExporter.get_rss_entries`
(export_competitors.py:442), standard RSS/Atom branch
(export_competitors.py:614-686). The age filter works on calendar days:
`(today - pub_date.date()).days > max_days_old` with `today =
datetime.now(timezone.utc).date()`. -/

/-- A feedparser entry: `published = none` models an entry none of whose
date fields yields a parseable date; `link = none` models a missing
`link` attribute, with `links` the `entry.links[0].href` fallback. -/
structure FeedEntry where
  link : Option String := none
  links : List String := []
  title : String := ""
  summary : String := ""
  published : Option Int := none
deriving Repr

/-- An element of the list `get_rss_entries` returns. -/
structure RssItem where
  url : String
  title : String
  published : Int
  summary : String
deriving Repr, DecidableEq

/-- The calendar day containing `t` (`datetime.date()` of a UTC
timestamp). -/
def dayOf (t : Int) : Int := t.fdiv secondsPerDay

/-- Python `<![CDATA[...]]>` unwrapping of export_competitors.py:656. -/
def cdataStrip (s : String) : String :=
  if startsWithSeq "<![CDATA[".data s.data && endsWithSeq "]]>".data s.data then
    ⟨pyStrip ((s.data.drop 9).dropLast.dropLast.dropLast)⟩
  else s

/-- One iteration of the `for entry in feed.entries` loop of the standard
RSS/Atom branch: entries with no parseable date are dropped, then the
day-difference age filter, then the URL scheme check. -/
def rssProcessEntry (now max_days_old : Int) (entry : FeedEntry) : Option RssItem :=
  match entry.published with
  | none => none                                   -- `if not pub_date: continue`
  | some t =>
    if dayOf now - dayOf t > max_days_old then none  -- too old
    else
      let url := match entry.link with
        | some u => u
        | none => match entry.links.head? with
          | some u => u
          | none => ""
      let url := cdataStrip url
      if url.data.isEmpty
          || !(startsWithSeq "http://".data url.data
               || startsWithSeq "https://".data url.data) then none
      else
        let title := cdataStrip entry.title
        let summary := cdataStrip entry.summary
        some { url := url
               title := if title.data.isEmpty then "No title" else title
               published := t
               summary := summary }

/-- Embeds the standard-feed branch of
`CompetitorExporter.get_rss_entries` over the parsed entries of one feed. -/
def get_rss_entries (now max_days_old : Int) (entries : List FeedEntry) : List RssItem :=
  entries.filterMap (rssProcessEntry now max_days_old)

/-! ## Pipeline Orchestrator: the URL-processing loop of
`CompetitorExporter.process_competitor` (export_competitors.py:820-869,
default path). The loop runs over `article_urls[:self.max_articles]`
exactly as discovery produced them and builds one record per element. -/

/-- The record assembled at export_competitors.py:832-842 (its `authors`
really is the empty string there, not a list). -/
structure DefaultArticle where
  url : String
  title : String
  publish_date : String
  authors : String
  source : String
  domain : String
  summary : String
  «section» : String
  subsection : String
deriving Repr, DecidableEq

/-- An RSS entry as seen by the metadata backfill of
export_competitors.py:846-857 (`published` is the entry's date in the
string form it is later serialized with). -/
structure RssBackfill where
  url : String
  title : String
  published : String
  summary : String
deriving Repr

/-- Embeds the loop body: URL-derived metadata
(export_competitors.py:828-842), then backfill from the first matching
RSS entry (export_competitors.py:846-857). -/
def mkDefaultArticleData (siteName competitorUrl nowStr : String)
    (rssEntries : List RssBackfill) (u : String) : DefaultArticle :=
  let url_parts := splitOnChar '/' (pyStripChars ['/'] u.data)
  let lastPart := url_parts.getLast?.getD []
  let title := joinSep [' ']
    (((splitOnChar '-' lastPart).filter (fun p => !p.isEmpty)).map
      (fun p => pyTitle (replaceChar '-' ' ' p)))
  let base_domain :=
    (removeAllSub "http://".data (removeAllSub "https://".data competitorUrl.data)).takeWhile
      (fun c => c ≠ '/')
  let n := url_parts.length
  let base : DefaultArticle :=
    { url := u
      title := ⟨title⟩
      publish_date := nowStr
      authors := ""
      source := siteName
      domain := ⟨base_domain⟩
      summary := ""
      «section» := if n > 1 then ⟨pyTitle (replaceChar '-' ' ' (url_parts.get? (n - 2) |>.getD []))⟩ else ""
      subsection := if n > 2 then ⟨pyTitle (replaceChar '-' ' ' (url_parts.get? (n - 3) |>.getD []))⟩ else "" }
  match rssEntries.find? (fun e => e.url = u) with
  | some entry =>
    { base with title := entry.title, publish_date := entry.published,
                summary := entry.summary }
  | none => base

/-- Embeds the iteration structure of the URL-processing loop: the
discovered URLs, truncated to `max_articles`, each yield one record —
there is no deduplication step in `process_competitor`. -/
def processArticleUrls (max_articles : Nat) (build : String → DefaultArticle)
    (urls : List String) : List DefaultArticle :=
  (urls.take max_articles).map build

/-- Deduplication preserving first-seen order, as the spec's words
describe it (spec-side definition, for comparison with the code). -/
def dedupFirstSeen (urls : List String) : List String :=
  (urls.foldl (fun acc u => if acc.contains u then acc else acc ++ [u]) [])

/-! ## Batch Driver: `CompetitorExporter.export_all_competitors`
(export_competitors.py:1024). Each competitor's processing is summarized
by its outcome: `.error e` models `future.result()` raising, `.ok r` its
`Optional[str]` return value. The `as_completed` collection order is
abstracted to submission order; the claims speak about which pairs are
returned, not their order. -/

abbrev SiteOutcome := Except String (Option String)

/-- Embeds the result-collection loop of `export_all_competitors`: a
truthy result is appended as `(name, path)`, a falsy result is logged as
"no articles exported", an exception is caught and logged. The function
is total: no outcome propagates. -/
def export_all_competitors : List (String × SiteOutcome) → List (String × String)
  | [] => []
  | (name, .ok (some path)) :: rest =>
    if path.data.isEmpty then export_all_competitors rest   -- `if result:` — "" is falsy
    else (name, path) :: export_all_competitors rest
  | (_, .ok none) :: rest => export_all_competitors rest
  | (_, .error _) :: rest => export_all_competitors rest

/-- Modelled from the spec: "returns only the successes" — the
`(site, path)` pairs of the sites whose processing produced a (nonempty)
output path (spec-side definition, for comparison with the loop). -/
def successPairs (sites : List (String × SiteOutcome)) : List (String × String) :=
  sites.filterMap (fun s =>
    match s.2 with
    | .ok (some path) => if path.data.isEmpty then none else some (s.1, path)
    | _ => none)

/-! ## Exporter: `BaseExporter._export_articles_to_file`
(base_exporter.py:31) and `CompetitorExporter.export_articles_to_csv`
(export_competitors.py:965)

The output file is modelled as the list of rows it holds (a row is the
list of the nine field values in schema order); `[]` stands for a missing
or empty file, matching the source's `os.path.isfile(filepath) and
os.path.getsize(filepath) > 0` check. Articles are dictionaries:
association lists from field name to a Python value. -/

/-- A Python dict value as the exporters see it: a string, a list of
strings (authors, images), or `None`. -/
inductive FieldVal where
  | s (v : String)
  | ls (v : List String)
  | none_
deriving Repr, DecidableEq

abbrev ArticleDict := List (String × FieldVal)

abbrev Row := List String

/-- The fixed column schema of both exporters. -/
def fieldnames : List String :=
  ["title", "url", "publish_date", "authors", "source", "domain",
   "summary", "section", "subsection"]

def headerRow : Row := fieldnames

def dictGet (a : ArticleDict) (k : String) : Option FieldVal :=
  (a.find? (fun kv => kv.1 = k)).map (fun kv => kv.2)

/-- Python `str(value)` for the value shapes above (`str` of a list of
strings is its bracketed, quoted repr). -/
def pyStrOf : FieldVal → String
  | .s v => v
  | .ls v =>
    ⟨"[".data ++ joinSep ", ".data (v.map (fun x => Char.ofNat 39 :: x.data ++ [Char.ofNat 39])) ++ "]".data⟩
  | .none_ => "None"

/-- The row the write loop builds for one article
(base_exporter.py:176-186 and export_competitors.py:1004-1014): each
schema field via `article.get(field, '')`, `None` to `''`, non-strings
through `str`. -/
def rowOf (a : ArticleDict) : Row :=
  fieldnames.map (fun field =>
    match dictGet a field with
    | Option.none => ""
    | some .none_ => ""
    | some (.s v) => v
    | some v => pyStrOf v)

/-- Embeds `normalize_text` (base_exporter.py:91). Lean strings are
always valid Unicode, so the byte-decoding branch, the final strict
UTF-8 re-encode and the `UnicodeError`/generic fallbacks cannot fire in
the model; NFC normalization is the identity on the already-composed
strings this development evaluates. What remains is the control-character
strip, the line-ending rewrite, and the whitespace collapse + strip. -/
def normalize_text (text : String) : String :=
  let cs := text.data
  -- re.sub(r"[\x00-\x08\x0B\x0C\x0E-\x1F\x7F-\x9F]", "", text)
  let cs := cs.filter (fun c =>
    !((c.toNat ≤ 8) || c.toNat = 11 || c.toNat = 12
      || (14 ≤ c.toNat && c.toNat ≤ 31) || (127 ≤ c.toNat && c.toNat ≤ 159)))
  -- text.replace("\r\n", "\n").replace("\r", "\n")
  let cs := replaceChar '\r' '\n' (replaceAllSub "\r\n".data "\n".data cs)
  -- re.sub(r"\s+", " ", text).strip()
  ⟨pyStrip (collapseWs cs)⟩

/-- Embeds `clean_article` (base_exporter.py:139): normalize string
values and string elements of list values, leave the rest. -/
def cleanArticle (a : ArticleDict) : ArticleDict :=
  a.map (fun kv =>
    (kv.1, match kv.2 with
      | .s v => .s (normalize_text v)
      | .ls v => .ls (v.map normalize_text)
      | .none_ => .none_))

/-- Embeds `BaseExporter._export_articles_to_file` acting on the
modelled file: empty article list leaves the file unwritten; otherwise
the articles are cleaned into `cleaned_articles` — which the source then
never uses — the header is written only when the file does not yet exist,
and the write loop serializes the elements of `articles` (the raw list). -/
def export_articles_to_file (file : List Row) (articles : List ArticleDict) : List Row :=
  if articles.isEmpty then file
  else
    let cleaned_articles := articles.map cleanArticle
    let _ := cleaned_articles   -- computed at base_exporter.py:154, never read again
    let rows := articles.map rowOf  -- `for article in articles:` (base_exporter.py:176)
    if file.isEmpty then headerRow :: rows else file ++ rows

/-- Embeds `CompetitorExporter.export_articles_to_csv` acting on the
modelled file: the file is opened with mode `'w'`
(export_competitors.py:995), so the previous content is discarded and the
header is always written. -/
def export_articles_to_csv (_file : List Row) (articles : List ArticleDict) : List Row :=
  headerRow :: articles.map rowOf

/-! ## Theorems -/

/-- A parsed page whose `publish_date` object raises when formatted
(everything else extracted normally). -/
def dateFormatFailPage : ParsedArticle :=
  { title := "Titular", text := "Cuerpo", metaDescription := "Resumen",
    publishDate := some (Except.error "boom") }

/-- The record `get_article_data` returns for `dateFormatFailPage`. -/
def dateFormatFailRecord : ArticleRecord :=
  get_article_data "El Pais" "elpais.com" "2026-01-01T00:00:00+00:00"
    "https://example.com/es/tecnologia/articulo-sobre-ia-12345"
    (Except.ok dateFormatFailPage)

/-- Claim C1 (counterexample): a field-formatting exception — the
`publish_date` formatter raising inside the inner handler of
base_scraper.py:125-132 — does not produce the stub record the claim
describes: the returned record keeps its URL-derived section
(`"Tecnologia"`, not `"error"`) and its real title. -/
theorem get_article_data_date_format_not_stub :
    dateFormatFailRecord.«section» = "Tecnologia"
    ∧ dateFormatFailRecord.«section» ≠ "error"
    ∧ dateFormatFailRecord.title ≠ "Error al extraer el artículo" := by
  decide

/-- Claim C1 (amended): `get_article_data` never raises (it is total). A
failure reaching the outer handler — download or parse error, or an
exception while assembling the fields — yields exactly the stub record:
sentinel title, `section = "error"`, the exception message embedded in
`summary`, every other field defaulted. An exception while formatting
`publish_date` is instead caught by the inner handler and yields the same
record as an absent date (`publish_date` defaulted to the current time,
no stub). An orchestrator mapping `get_article_data` over URLs yields one
record per URL whatever each fetch outcome is. -/
theorem get_article_data_failure_contract :
    (∀ (name domain now url e : String),
      get_article_data name domain now url (Except.error e) =
        { title := "Error al extraer el artículo", text := "", publish_date := now,
          authors := ["Error"], url := url, source := name, domain := domain,
          html := "", images := [], keywords := [],
          summary := "Error al procesar el artículo: " ++ e,
          «section» := "error", subsection := "" })
    ∧ (∀ (name domain now url m : String) (pa : ParsedArticle),
      get_article_data name domain now url
          (Except.ok { pa with publishDate := some (Except.error m) }) =
        get_article_data name domain now url
          (Except.ok { pa with publishDate := none }))
    ∧ (∀ (name domain now : String) (fetch : String → Except String ParsedArticle)
        (urls : List String),
      (processUrls name domain now fetch urls).length = urls.length) := by
  refine ⟨fun _ _ _ _ _ => rfl, fun _ _ _ _ _ _ => rfl, fun _ _ _ _ urls => ?_⟩
  simp [processUrls]

/-- Claim C2: the batch driver's collection loop returns exactly the
`(site, path)` pairs of the sites whose processing produced a truthy
output path; a site whose processing raises contributes nothing and does
not disturb the sites before or after it. The loop is a total function of
the outcomes, so no exception propagates out of it. -/
theorem export_all_competitors_successes :
    (∀ sites : List (String × SiteOutcome),
      export_all_competitors sites = successPairs sites)
    ∧ (∀ (pre post : List (String × SiteOutcome)) (name e : String),
      export_all_competitors (pre ++ (name, Except.error e) :: post) =
        export_all_competitors (pre ++ post)) := by
  constructor
  · intro sites
    induction sites with
    | nil => rfl
    | cons head tail ih =>
      obtain ⟨n, o⟩ := head
      cases o with
      | error e => simpa [export_all_competitors, successPairs] using ih
      | ok r =>
        cases r with
        | none => simpa [export_all_competitors, successPairs] using ih
        | some p =>
          by_cases hp : p.data = [] <;>
            simp [export_all_competitors, successPairs, List.filterMap_cons,
              List.isEmpty_iff, hp, ih]
  · intro pre post name e
    induction pre with
    | nil => rfl
    | cons head tail ih =>
      obtain ⟨n, o⟩ := head
      cases o with
      | error e2 => simpa [export_all_competitors] using ih
      | ok r =>
        cases r with
        | none => simpa [export_all_competitors] using ih
        | some p =>
          by_cases hp : p.data = [] <;>
            simp [export_all_competitors, List.isEmpty_iff, hp, ih]

/-- The URL of the record built by the default-processing loop body is
the processed URL itself, whether or not an RSS entry backfills it. -/
theorem mkDefaultArticleData_url (siteName competitorUrl nowStr : String)
    (rss : List RssBackfill) (u : String) :
    (mkDefaultArticleData siteName competitorUrl nowStr rss u).url = u := by
  unfold mkDefaultArticleData
  cases rss.find? (fun e => e.url = u) <;> rfl

/-- The three discovered URLs of the dedup example (the second a repeat
of the first). -/
def noDedupUrls : List String :=
  ["https://s/cultura/uno", "https://s/cultura/uno", "https://s/dep/dos"]

/-- Claim C3 (counterexample): `process_competitor` does not deduplicate. On
discovery output `[urlA, urlA, urlB]` the URL-processing loop builds
three records — `urlA` processed twice — whereas the claim promises
exactly the two distinct URLs of the first-seen-order deduplication. -/
theorem process_competitor_no_dedup :
    (processArticleUrls 50
        (mkDefaultArticleData "Site" "https://s" "2026-01-01" []) noDedupUrls).map
        (fun a => a.url) = noDedupUrls
    ∧ (processArticleUrls 50
        (mkDefaultArticleData "Site" "https://s" "2026-01-01" []) noDedupUrls).length = 3
    ∧ noDedupUrls ≠ dedupFirstSeen noDedupUrls := by
  decide

/-- Claim C3 (amended): the orchestrator performs no deduplication: the
discovered URL list, truncated to `max_articles`, is processed as-is —
every occurrence, duplicates included, yields exactly one record carrying
that URL. -/
theorem process_competitor_processes_each_url :
    ∀ (siteName competitorUrl nowStr : String) (rss : List RssBackfill)
      (max_articles : Nat) (urls : List String),
      (processArticleUrls max_articles
          (mkDefaultArticleData siteName competitorUrl nowStr rss) urls).map
          (fun a => a.url) = urls.take max_articles := by
  intro siteName competitorUrl nowStr rss max_articles urls
  simp [processArticleUrls, List.map_map, Function.comp_def, mkDefaultArticleData_url]

/-- A first-run article dictionary (only the fields that matter for the
row identity). -/
def appendDictA : ArticleDict := [("url", FieldVal.s "u1")]

/-- A second-run article dictionary, disjoint from `appendDictA`. -/
def appendDictB : ArticleDict := [("url", FieldVal.s "u2")]

/-- Claim C4 (counterexample): the default exporter path,
`CompetitorExporter.export_articles_to_csv`, opens the day-file with mode
`'w'`: a second run the same day truncates the file, so the result holds
only the second run's rows under a fresh header — not the union the claim
promises. -/
theorem export_csv_truncates :
    export_articles_to_csv (export_articles_to_csv [] [appendDictA]) [appendDictB] =
        [headerRow, rowOf appendDictB]
    ∧ export_articles_to_csv (export_articles_to_csv [] [appendDictA]) [appendDictB] ≠
        headerRow :: [rowOf appendDictA, rowOf appendDictB] := by
  decide

/-- Claim C4 (amended): the dedicated exporter path,
`BaseExporter._export_articles_to_file`, does append: running it twice in
the same day on nonempty article lists yields the header exactly once
followed by both runs' rows in order. -/
theorem export_to_file_appends_without_header_rewrite :
    ∀ (a1 a2 : List ArticleDict), a1 ≠ [] → a2 ≠ [] →
      export_articles_to_file (export_articles_to_file [] a1) a2 =
        headerRow :: (a1.map rowOf ++ a2.map rowOf) := by
  intro a1 a2 h1 h2
  simp [export_articles_to_file, List.isEmpty_iff, h1, h2]

/-- Claim C4 (witness): the append theorem at one-article runs. -/
theorem export_to_file_appends_witness :
    export_articles_to_file (export_articles_to_file [] [appendDictA]) [appendDictB] =
      headerRow :: ([appendDictA].map rowOf ++ [appendDictB].map rowOf) :=
  export_to_file_appends_without_header_rewrite [appendDictA] [appendDictB]
    (by decide) (by decide)

/-- Claim C5 (counterexample): with `now` at noon of day 10 (907200 = 10·86400 +
43200), `days_back = 1` and an entry 30 hours old (t = 799200), the claim
says the entry is excluded (now − t = 108000 > 86400 seconds), but the
code keeps it: the cutoff is measured from midnight of the current day,
not from `now`. -/
theorem sitemap_age_filter_now_minus_t_false :
    get_recent_article_urls 907200 1
        [{ loc := some "https://x/a", date := .parsed 799200 }] = ["https://x/a"]
    ∧ ¬ ((907200 - 799200 : Int) ≤ 1 * 86400) := by
  decide

/-- Claim C5 (amended): a parseable entry is kept iff its timestamp is not
before `days_back` days before the start of the current day
(`today.replace(hour=0,...) - timedelta(days=days_back)`). The spec's
concrete cases still hold: an entry 10 days old is excluded at
`days_back = 1` and included at `days_back = 30`, for every `now`. -/
theorem sitemap_age_filter_uses_day_start :
    ∀ (now max_days_old t : Int) (l : String), l.data ≠ [] →
      (get_recent_article_urls now max_days_old [{ loc := some l, date := .parsed t }] =
        if dayStart now - max_days_old * secondsPerDay ≤ t
        then [(⟨pyStrip l.data⟩ : String)] else [])
      ∧ get_recent_article_urls now 1
          [{ loc := some l, date := .parsed (now - 10 * secondsPerDay) }] = []
      ∧ get_recent_article_urls now 30
          [{ loc := some l, date := .parsed (now - 10 * secondsPerDay) }] =
          [(⟨pyStrip l.data⟩ : String)] := by
  intro now max_days_old t l hl
  have key : ∀ d u : Int,
      get_recent_article_urls now d [{ loc := some l, date := .parsed u }] =
        if dayStart now - d * secondsPerDay ≤ u
        then [(⟨pyStrip l.data⟩ : String)] else [] := by
    intro d u
    by_cases hc : dayStart now - d * secondsPerDay ≤ u
    · simp [get_recent_article_urls, entryKept, List.isEmpty_iff, hl, hc, not_lt.mpr hc]
    · simp [get_recent_article_urls, entryKept, List.isEmpty_iff, hl, hc, lt_of_not_le hc]
  have hm1 : 0 ≤ now.emod 86400 := Int.emod_nonneg now (by norm_num)
  have hm2 : now.emod 86400 < 86400 := Int.emod_lt_of_pos now (by norm_num)
  refine ⟨key max_days_old t, ?_, ?_⟩
  · rw [key, if_neg]
    simp only [dayStart, secondsPerDay]
    omega
  · rw [key, if_pos]
    simp only [dayStart, secondsPerDay]
    omega

/-- Claim C5 (witness): the amended filter characterization at concrete inputs. -/
theorem sitemap_age_filter_uses_day_start_witness :
    (get_recent_article_urls 907200 1 [{ loc := some "a", date := .parsed 799200 }] =
      if dayStart 907200 - 1 * secondsPerDay ≤ (799200 : Int)
      then [(⟨pyStrip "a".data⟩ : String)] else [])
    ∧ get_recent_article_urls 907200 1
        [{ loc := some "a", date := .parsed (907200 - 10 * secondsPerDay) }] = []
    ∧ get_recent_article_urls 907200 30
        [{ loc := some "a", date := .parsed (907200 - 10 * secondsPerDay) }] =
        [(⟨pyStrip "a".data⟩ : String)] :=
  sitemap_age_filter_uses_day_start 907200 1 799200 "a" (by decide)

/-- Claim C6: the two discovery paths apply opposite missing-date policies: a
sitemap entry whose date is absent or unparseable is kept by
`get_recent_article_urls`, while a feed entry with no parseable date is
dropped by `get_rss_entries`. -/
theorem missing_date_policy_asymmetry :
    ∀ (now max_days_old : Int) (l : String) (e : FeedEntry),
      l.data ≠ [] → e.published = none →
      get_recent_article_urls now max_days_old [{ loc := some l, date := .absent }] =
          [(⟨pyStrip l.data⟩ : String)]
      ∧ get_recent_article_urls now max_days_old [{ loc := some l, date := .unparseable }] =
          [(⟨pyStrip l.data⟩ : String)]
      ∧ get_rss_entries now max_days_old [e] = [] := by
  intro now max_days_old l e hl he
  refine ⟨?_, ?_, ?_⟩
  · simp [get_recent_article_urls, entryKept, List.isEmpty_iff, hl]
  · simp [get_recent_article_urls, entryKept, List.isEmpty_iff, hl]
  · simp [get_rss_entries, rssProcessEntry, he]

/-- Claim C6 (witness): the asymmetry at a concrete undated entry. -/
theorem missing_date_policy_asymmetry_witness :
    get_recent_article_urls 0 1 [{ loc := some "u", date := .absent }] =
        [(⟨pyStrip "u".data⟩ : String)]
    ∧ get_recent_article_urls 0 1 [{ loc := some "u", date := .unparseable }] =
        [(⟨pyStrip "u".data⟩ : String)]
    ∧ get_rss_entries 0 1 [{ published := none }] = [] :=
  missing_date_policy_asymmetry 0 1 "u" { published := none } (by decide) rfl

/-- Claim C7 (counterexample): on the spec's example input, `clean_authors`
does not return `["Juan García"]`: the `\bpor\b` exclusion pattern
rejects `"Por Juan García"` outright (there is no prefix-stripping
step). -/
theorem clean_authors_spec_example_fails :
    clean_authors ["Por Juan García", "Redacción", "3 min de lectura"] ≠
      ["Juan García"] := by
  decide

/-- Claim C7 (amended): `clean_authors` on the spec's example input returns the
empty list: `"Por Juan García"` matches the `\bpor\b` exclusion,
`"Redacción"` the editorial-staff exclusion, and `"3 min de lectura"` the
reading-time exclusions. -/
theorem clean_authors_spec_example_empty :
    clean_authors ["Por Juan García", "Redacción", "3 min de lectura"] = [] := by
  decide

/-- A title carrying a control character and a doubled space. -/
def controlCharTitle : String := "A\x00  B"

/-- An article whose title needs normalization. -/
def controlCharArticle : ArticleDict := [("title", FieldVal.s controlCharTitle)]

/-- Claim C8 (code bug): `_export_articles_to_file` computes
`cleaned_articles` and then serializes the raw `articles` list, so the
value written for the title is the raw `"A\x00  B"`, not its
normalization `"A B"` — the control character survives and the
whitespace run is not collapsed, contradicting the function's own
"Clean all articles before export" step. -/
theorem export_writes_unnormalized_fields :
    export_articles_to_file [] [controlCharArticle] =
        [headerRow, [controlCharTitle, "", "", "", "", "", "", "", ""]]
    ∧ normalize_text controlCharTitle = "A B"
    ∧ controlCharTitle ≠ normalize_text controlCharTitle := by
  decide

/-- Claim C10: `get_recent_article_urls` inspects only the first 200 entries
(`for url in urls[:200]`): its result on any entry list equals its result
on that list truncated to 200, so an entry past position 200 can never
contribute a URL, however recent its timestamp. -/
theorem sitemap_inspects_first_200_only :
    ∀ (now max_days_old : Int) (entries : List SitemapEntry),
      get_recent_article_urls now max_days_old entries =
        get_recent_article_urls now max_days_old (entries.take 200) := by
  intro now max_days_old entries
  simp [get_recent_article_urls, List.take_take]

end NewsScraper






